import Mathlib

/-!
Verification development for the MedAssist repository.

The definitions below are a shallow embedding of the data model and the
operations of the repository:

- shared/schema.ts            : the shared TypeScript data types
- server/storage.ts           : the SQLite-backed Record Gateway (SqliteStorage)
- server/routes.ts            : the POST /api/diagnose HTTP handler
- client/src/lib/offline.ts   : the offline cache (Snapshot Store) and the
                                offline diagnosis engine (diagnoseOffline,
                                isOnline)
- client/src/pages/DiagnosisPage.tsx : the analyzeMutation resolver

JavaScript numbers appearing only as opaque payload (ages, vital signs,
confidence percentages) are modelled as Int; none of the verified claims
computes with fractional values.  Date values that cross the JSON boundary
are modelled as their ISO-8601 strings.  Asynchronous functions are
modelled as pure functions from an explicit environment (the outcome of
each awaited external call) to their result.
-/

/-! ## Shared data model (shared/schema.ts) -/

/-- VitalSigns embedded object: all fields optional. -/
structure VitalSigns where
  temperature : Option Int
  bloodPressure : Option String
  heartRate : Option Int
  respiratoryRate : Option Int
  oxygenSaturation : Option Int
deriving Repr, DecidableEq

/-- One differential diagnosis: condition, confidence (0-100), reasoning. -/
structure DifferentialDiagnosis where
  condition : String
  confidence : Int
  reasoning : String
deriving Repr, DecidableEq

/-- One medication inside a treatment protocol. -/
structure Medication where
  name : String
  dosage : String
  frequency : String
  duration : String
deriving Repr, DecidableEq

/-- TreatmentProtocol embedded object. -/
structure TreatmentProtocol where
  medications : List Medication
  procedures : List String
  lifestyle : List String
deriving Repr, DecidableEq

/-- Patient record as produced by the Record Gateway. -/
structure Patient where
  id : String
  name : String
  age : Int
  gender : String
  weight : Option Int
  contactNumber : Option String
  address : Option String
  createdAt : String
deriving Repr, DecidableEq

/-- Diagnosis record in its TypeScript shape (the shape returned by the
Record Gateway and consumed by the client): symptoms and
differentialDiagnoses are always lists, requiresReferral is a boolean,
language is a string. -/
structure Diagnosis where
  id : String
  patientId : String
  symptoms : List String
  vitalSigns : Option VitalSigns
  primaryDiagnosis : String
  differentialDiagnoses : List DifferentialDiagnosis
  treatmentProtocol : Option TreatmentProtocol
  requiresReferral : Bool
  referralReason : Option String
  language : String
  createdAt : String
deriving Repr, DecidableEq

/-- KnowledgeBase entry in its TypeScript shape. -/
structure KnowledgeBase where
  id : String
  symptoms : List String
  ageGroup : String
  gender : String
  diagnosis : String
  confidence : Int
  outcome : Option String
  createdAt : String
deriving Repr, DecidableEq

/-! ## Client offline module (client/src/lib/offline.ts) -/

/-- Knowledge snippet attached by the local fallback backend. -/
structure KnowledgeSnippet where
  id : String
  title : String
  content : String
  source : Option String
deriving Repr, DecidableEq

/-- The JSON payload the client receives from either diagnosis backend.
The primary backend (the Express POST /api/diagnose route) answers with a
stored Diagnosis and therefore carries no mode field and no knowledge
snippets; the local fallback backend (ml FastAPI /analyze) answers with
the raw analysis shape.  The client treats both as untyped data; the
fields below are exactly the ones it reads. -/
structure BackendData where
  mode : Option String
  patientId : Option String
  primaryDiagnosis : String
  differentialDiagnoses : List DifferentialDiagnosis
  treatmentProtocol : Option TreatmentProtocol
  requiresReferral : Bool
  referralReason : Option String
  knowledgeSnippets : List KnowledgeSnippet
deriving Repr, DecidableEq

/-- Input payload of diagnoseOffline (OfflineDiagnosisInput in
client/src/lib/offline.ts). -/
structure OfflineDiagnosisInput where
  patientId : Option String
  symptoms : List String
  vitalSigns : Option VitalSigns
  patientAge : Int
  patientGender : String
  patientWeight : Option Int
  language : String
deriving Repr, DecidableEq

/-- Outcome of the fetch call inside diagnoseOffline: a transport error,
or an HTTP response with a status code and a body (none when res.json()
fails to parse). -/
inductive FetchResult where
  | netError : FetchResult
  | response (status : Int) (body : Option BackendData) : FetchResult
deriving Repr, DecidableEq

/-- The minimal fallback object built in the catch branch of
diagnoseOffline. -/
def offlineSentinel (input : OfflineDiagnosisInput) : BackendData :=
  { mode := some "offline"
    patientId := some (input.patientId.getD "")
    primaryDiagnosis := "Offline diagnosis service unavailable"
    differentialDiagnoses := []
    treatmentProtocol := none
    requiresReferral := false
    referralReason := some "Error in local NLP service"
    knowledgeSnippets := [] }

/-- res.ok in the fetch API: status in the 2xx range. -/
def fetchOk (status : Int) : Bool :=
  decide (200 ≤ status ∧ status ≤ 299)

/-- diagnoseOffline from client/src/lib/offline.ts.  The fetch throws on
transport error, the handler throws on a non-ok status and when the body
fails to parse; all three land in the catch branch which returns the
sentinel.  On success the data is tagged mode = "offline" unless a mode
field is already present. -/
def diagnoseOffline (input : OfflineDiagnosisInput) (f : FetchResult) :
    BackendData :=
  match f with
  | .netError => offlineSentinel input
  | .response status body =>
    if fetchOk status then
      match body with
      | none => offlineSentinel input
      | some data =>
        if data.mode.isSome then data else { data with mode := some "offline" }
    else offlineSentinel input

/-- isOnline from client/src/lib/offline.ts: navigator.onLine, defaulting
to true outside a browser.  Modelled as the boolean the environment
reports. -/
def isOnline (navigatorOnLine : Option Bool) : Bool :=
  navigatorOnLine.getD true

/-! ## The analyze resolver (client/src/pages/DiagnosisPage.tsx) -/

/-- Modelled from the spec: the outcome of apiRequest("POST",
"/api/diagnose", data) from client/src/lib/queryClient.ts, which is not
under src/.  Per the spec, the call rejects on timeout, on a non-2xx
response and on a transport error, and resolves with the parsed response
body otherwise; the error branch is collapsed into a single constructor
since the resolver treats every rejection identically. -/
inductive ApiOutcome where
  | failure : ApiOutcome
  | success (data : BackendData) : ApiOutcome
deriving Repr, DecidableEq

/-- Result of one run of the analyzeMutation mutation function, together
with how many times each backend was invoked during the run. -/
structure AnalyzeTrace where
  result : BackendData
  primaryCalls : Nat
  fallbackCalls : Nat
deriving Repr, DecidableEq

/-- The mutationFn of analyzeMutation in DiagnosisPage.tsx.  When the
Connectivity Oracle reports offline the primary backend is skipped and
diagnoseOffline runs; otherwise apiRequest is attempted first and any
rejection falls through to diagnoseOffline.  The trace records one
primary call whenever apiRequest is attempted and one fallback call
whenever diagnoseOffline runs (diagnoseOffline performs exactly one
fetch). -/
def analyzeMutationFn (online : Bool) (primary : ApiOutcome)
    (fallbackFetch : FetchResult) (input : OfflineDiagnosisInput) :
    AnalyzeTrace :=
  if !online then
    { result := diagnoseOffline input fallbackFetch
      primaryCalls := 0
      fallbackCalls := 1 }
  else
    match primary with
    | .success r => { result := r, primaryCalls := 1, fallbackCalls := 0 }
    | .failure =>
      { result := diagnoseOffline input fallbackFetch
        primaryCalls := 1
        fallbackCalls := 1 }

/-- The JSON body the Express POST /api/diagnose route sends on success:
res.status(201).json(diagnosis).  A stored Diagnosis carries no mode
field and no knowledge snippets, so the client sees this payload. -/
def serverDiagnosisPayload (d : Diagnosis) : BackendData :=
  { mode := none
    patientId := some d.patientId
    primaryDiagnosis := d.primaryDiagnosis
    differentialDiagnoses := d.differentialDiagnoses
    treatmentProtocol := d.treatmentProtocol
    requiresReferral := d.requiresReferral
    referralReason := d.referralReason
    knowledgeSnippets := [] }

/-! ## SQLite rows and database state (server/db.ts, server/storage.ts)

Text columns holding serialized JSON are modelled as Option of the
decoded value: none is a NULL column, and the JSON.stringify and
JSON.parse pair used by the storage layer round-trips the value.  The
requiresReferral column is an INTEGER as in the CREATE TABLE statement. -/

/-- One row of the diagnoses table. -/
structure DiagRow where
  id : String
  patientId : String
  symptoms : Option (List String)
  vitalSigns : Option VitalSigns
  primaryDiagnosis : String
  differentialDiagnoses : Option (List DifferentialDiagnosis)
  treatmentProtocol : Option TreatmentProtocol
  requiresReferral : Int
  referralReason : Option String
  language : Option String
  createdAt : String
deriving Repr, DecidableEq

/-- One row of the knowledge_base table. -/
structure KbRow where
  id : String
  symptoms : Option (List String)
  ageGroup : String
  gender : String
  diagnosis : String
  confidence : Int
  outcome : Option String
  createdAt : String
deriving Repr, DecidableEq

/-- State of the SQLite database: the three tables.  The patients table
rows coincide with the Patient shape. -/
structure DbState where
  patients : List Patient
  diagnoses : List DiagRow
  knowledgeBase : List KbRow
deriving Repr, DecidableEq

/-- Failures surfaced by the storage layer.  With foreign_keys = ON the
diagnoses insert throws when patientId references no existing patient;
the spec calls this a ReferenceError. -/
inductive DbError where
  | foreignKeyViolation : DbError
deriving Repr, DecidableEq

/-- rowToDiagnosis from server/storage.ts: NULL symptom and differential
columns decode to [], requiresReferral is coerced with a double negation,
NULL language defaults to "en". -/
def rowToDiagnosis (row : DiagRow) : Diagnosis :=
  { id := row.id
    patientId := row.patientId
    symptoms := row.symptoms.getD []
    vitalSigns := row.vitalSigns
    primaryDiagnosis := row.primaryDiagnosis
    differentialDiagnoses := row.differentialDiagnoses.getD []
    treatmentProtocol := row.treatmentProtocol
    requiresReferral := row.requiresReferral != 0
    referralReason := row.referralReason
    language := row.language.getD "en"
    createdAt := row.createdAt }

/-- rowToKnowledge from server/storage.ts. -/
def rowToKnowledge (row : KbRow) : KnowledgeBase :=
  { id := row.id
    symptoms := row.symptoms.getD []
    ageGroup := row.ageGroup
    gender := row.gender
    diagnosis := row.diagnosis
    confidence := row.confidence
    outcome := row.outcome
    createdAt := row.createdAt }

/-- InsertDiagnosis: the argument shape of createDiagnosis.  The route
handler builds it from validated request data and the untyped FastAPI
response, so differentialDiagnoses, vitalSigns, treatmentProtocol,
referralReason and language may all be absent at runtime. -/
structure InsertDiagnosis where
  patientId : String
  symptoms : List String
  vitalSigns : Option VitalSigns
  primaryDiagnosis : String
  differentialDiagnoses : Option (List DifferentialDiagnosis)
  treatmentProtocol : Option TreatmentProtocol
  requiresReferral : Bool
  referralReason : Option String
  language : Option String
deriving Repr, DecidableEq

/-- ORDER BY datetime(createdAt) DESC, modelled as a stable sort on the
ISO-8601 createdAt strings (lexicographic order on ISO-8601 strings is
chronological order). -/
def createdAtDesc (a b : DiagRow) : Bool :=
  decide (b.createdAt ≤ a.createdAt)

namespace SqliteStorage

/-- getDiagnosis from server/storage.ts: SELECT by id, mapped through
rowToDiagnosis. -/
def getDiagnosis (st : DbState) (id : String) : Option Diagnosis :=
  (st.diagnoses.find? (fun row => row.id == id)).map rowToDiagnosis

/-- getDiagnosesByPatient from server/storage.ts. -/
def getDiagnosesByPatient (st : DbState) (patientId : String) :
    List Diagnosis :=
  (((st.diagnoses.filter (fun row => row.patientId == patientId)).mergeSort
    createdAtDesc).map rowToDiagnosis)

/-- getAllDiagnoses from server/storage.ts. -/
def getAllDiagnoses (st : DbState) : List Diagnosis :=
  ((st.diagnoses.mergeSort createdAtDesc).map rowToDiagnosis)

/-- createDiagnosis from server/storage.ts.  The INSERT serializes the
nested structures (an absent differential list, vital signs object or
treatment protocol is stored as NULL), stores requiresReferral as 0 or 1
and language with an "en" default, and runs under foreign_keys = ON, so
it fails when patientId references no patient and nothing is persisted
in that case.  The generated id and ISO timestamp are passed in
explicitly (newId and nowIso).  On success it returns the new state and
the full record rebuilt from the inputs. -/
def createDiagnosis (st : DbState) (ins : InsertDiagnosis)
    (id now : String) : Except DbError (DbState × Diagnosis) :=
  if st.patients.any (fun p => p.id == ins.patientId) then
    let row : DiagRow :=
      { id := id
        patientId := ins.patientId
        symptoms := some ins.symptoms
        vitalSigns := ins.vitalSigns
        primaryDiagnosis := ins.primaryDiagnosis
        differentialDiagnoses := ins.differentialDiagnoses
        treatmentProtocol := ins.treatmentProtocol
        requiresReferral := if ins.requiresReferral then 1 else 0
        referralReason := ins.referralReason
        language := some (ins.language.getD "en")
        createdAt := now }
    .ok ({ st with diagnoses := row :: st.diagnoses },
      { id := id
        patientId := ins.patientId
        symptoms := ins.symptoms
        vitalSigns := ins.vitalSigns
        primaryDiagnosis := ins.primaryDiagnosis
        differentialDiagnoses := ins.differentialDiagnoses.getD []
        treatmentProtocol := ins.treatmentProtocol
        requiresReferral := ins.requiresReferral
        referralReason := ins.referralReason
        language := ins.language.getD "en"
        createdAt := now })
  else
    .error .foreignKeyViolation

/-- Argument shape of addKnowledgeEntry (KnowledgeBase without id and
createdAt). -/
structure KnowledgeEntryFields where
  symptoms : List String
  ageGroup : String
  gender : String
  diagnosis : String
  confidence : Int
  outcome : Option String
deriving Repr, DecidableEq

/-- addKnowledgeEntry from server/storage.ts: append-only insert, no
dedup; id and timestamp passed in explicitly.  The insert itself has no
failure condition (the knowledge_base table has no foreign key). -/
def addKnowledgeEntry (st : DbState) (entry : KnowledgeEntryFields)
    (id now : String) : DbState × KnowledgeBase :=
  let row : KbRow :=
    { id := id
      symptoms := some entry.symptoms
      ageGroup := entry.ageGroup
      gender := entry.gender
      diagnosis := entry.diagnosis
      confidence := entry.confidence
      outcome := entry.outcome
      createdAt := now }
  ({ st with knowledgeBase := row :: st.knowledgeBase },
    rowToKnowledge row)

/-- searchKnowledge from server/storage.ts: the SQL WHERE clause keeps
rows whose ageGroup matches exactly and whose gender matches exactly or
is the wildcard "other"; the JavaScript filter then keeps rows whose
stored symptom list contains at least one of the query symptoms; the
result is mapped through rowToKnowledge and sorted by confidence
descending. -/
def searchKnowledge (st : DbState) (symptoms : List String)
    (ageGroup gender : String) : List KnowledgeBase :=
  let rows := st.knowledgeBase.filter (fun row =>
    row.ageGroup == ageGroup && (row.gender == gender || row.gender == "other"))
  let filtered := rows.filter (fun row =>
    symptoms.any (fun s => (row.symptoms.getD []).contains s))
  (filtered.map rowToKnowledge).mergeSort
    (fun a b => decide (b.confidence ≤ a.confidence))

end SqliteStorage

/-! ## Request validation (shared/schema.ts, symptomAnalysisSchema) -/

/-- Raw body of a POST /api/diagnose request in its typed shape; language
is optional because the schema supplies a default for it. -/
structure SymptomAnalysisRequest where
  patientId : String
  symptoms : List String
  vitalSigns : Option VitalSigns
  patientAge : Int
  patientGender : String
  patientWeight : Option Int
  language : Option String
deriving Repr, DecidableEq

/-- The five supported language codes of the language enum. -/
def supportedLanguages : List String := ["en", "hi", "ta", "te", "bn"]

/-- Validated request data after symptomAnalysisSchema.parse: language
has received its default. -/
structure ValidatedAnalysis where
  patientId : String
  symptoms : List String
  vitalSigns : Option VitalSigns
  patientAge : Int
  patientGender : String
  patientWeight : Option Int
  language : String
deriving Repr, DecidableEq

/-- symptomAnalysisSchema.parse: the symptoms array must hold at least
one element, and language, when present, must be one of the five
supported codes (defaulting to "en" when absent).  A failure is the
ZodError the route handler turns into an HTTP 400. -/
def symptomAnalysisParse (r : SymptomAnalysisRequest) :
    Except Unit ValidatedAnalysis :=
  if r.symptoms.length ≥ 1 ∧ r.language.getD "en" ∈ supportedLanguages then
    .ok
      { patientId := r.patientId
        symptoms := r.symptoms
        vitalSigns := r.vitalSigns
        patientAge := r.patientAge
        patientGender := r.patientGender
        patientWeight := r.patientWeight
        language := r.language.getD "en" }
  else
    .error ()

/-! ## The POST /api/diagnose route handler (server/routes.ts) -/

/-- Response body of the FastAPI /analyze call as the handler reads it:
the data is untyped, so every field except primaryDiagnosis may be
absent. -/
structure AiDiagnosis where
  primaryDiagnosis : String
  differentialDiagnoses : Option (List DifferentialDiagnosis)
  treatmentProtocol : Option TreatmentProtocol
  requiresReferral : Option Bool
  referralReason : Option String
deriving Repr, DecidableEq

/-- Environment of one handler run: the outcome of the axios call to the
FastAPI service, and whether the addKnowledgeEntry insert succeeds (an
injected storage failure; the insert has no logical failure condition). -/
structure DiagnoseEnv where
  fastApi : Except Unit AiDiagnosis
  addEntryOk : Bool
deriving Repr

/-- Body of the HTTP response of the diagnose route. -/
inductive DiagnoseBody where
  | storedDiagnosis (d : Diagnosis) : DiagnoseBody
  | invalidDiagnosisData : DiagnoseBody
  | nlpServiceUnavailable : DiagnoseBody
deriving Repr, DecidableEq

/-- Observable outcome of one handler run: HTTP status, response body,
database state after the run, and how many times the FastAPI backend was
called. -/
structure DiagnoseOutcome where
  status : Int
  body : DiagnoseBody
  db : DbState
  fastApiCalls : Nat
deriving Repr, DecidableEq

/-- The age bucketing computed inline in the handler. -/
def ageGroupOf (age : Int) : String :=
  if age < 18 then "child" else if age < 60 then "adult" else "senior"

/-- The confidence stored with the knowledge entry:
aiDiagnosis.differentialDiagnoses[0].confidence when a first
differential exists, 100 otherwise. -/
def topConfidence (dds : Option (List DifferentialDiagnosis)) : Int :=
  match dds with
  | some (d :: _) => d.confidence
  | _ => 100

/-- The POST /api/diagnose handler from server/routes.ts.  The whole body
runs inside one try block: a validation failure answers 400, and any
failure of the FastAPI call, of createDiagnosis or of addKnowledgeEntry
lands in the same catch branch answering 500 "NLP service unavailable".
Nothing committed before the failing step is rolled back.  The ids and
the timestamp generated by the storage layer are passed in explicitly. -/
def diagnoseHandler (env : DiagnoseEnv) (st : DbState)
    (req : SymptomAnalysisRequest) (diagId kbId now : String) :
    DiagnoseOutcome :=
  match symptomAnalysisParse req with
  | .error _ =>
    { status := 400, body := .invalidDiagnosisData, db := st, fastApiCalls := 0 }
  | .ok v =>
    match env.fastApi with
    | .error _ =>
      { status := 500, body := .nlpServiceUnavailable, db := st,
        fastApiCalls := 1 }
    | .ok ai =>
      let ins : InsertDiagnosis :=
        { patientId := v.patientId
          symptoms := v.symptoms
          vitalSigns := v.vitalSigns
          primaryDiagnosis := ai.primaryDiagnosis
          differentialDiagnoses := ai.differentialDiagnoses
          treatmentProtocol := ai.treatmentProtocol
          requiresReferral := ai.requiresReferral.getD false
          referralReason := ai.referralReason
          language := some v.language }
      match SqliteStorage.createDiagnosis st ins diagId now with
      | .error _ =>
        { status := 500, body := .nlpServiceUnavailable, db := st,
          fastApiCalls := 1 }
      | .ok (st1, diagnosis) =>
        let entry : SqliteStorage.KnowledgeEntryFields :=
          { symptoms := v.symptoms
            ageGroup := ageGroupOf v.patientAge
            gender := v.patientGender
            diagnosis := ai.primaryDiagnosis
            confidence := topConfidence ai.differentialDiagnoses
            outcome := none }
        if env.addEntryOk then
          let (st2, _) := SqliteStorage.addKnowledgeEntry st1 entry kbId now
          { status := 201, body := .storedDiagnosis diagnosis, db := st2,
            fastApiCalls := 1 }
        else
          { status := 500, body := .nlpServiceUnavailable, db := st1,
            fastApiCalls := 1 }

/-! ## The local Snapshot Store (client/src/lib/offline.ts, offlineCache)

localStorage maps string keys to strings; offlineCache writes
JSON.stringify of its values and reads them back with JSON.parse.  The
store is modelled as an association list from keys to JSON documents
(the parse of the stored string), and the stringify and parse pair is
made explicit as an encoder into the Json type below together with a
decoder proved to be its left inverse, so the round trip through the
serialized text is accounted for. -/

/-- JSON documents as stored in the cache. -/
inductive Json where
  | null : Json
  | bool (b : Bool) : Json
  | num (n : Int) : Json
  | str (s : String) : Json
  | arr (items : List Json) : Json

/-- Encoder for an optional number field. -/
def encIntOpt : Option Int → Json
  | none => .null
  | some n => .num n

/-- Decoder for an optional number field. -/
def decIntOpt : Json → Option (Option Int)
  | .null => some none
  | .num n => some (some n)
  | _ => none

/-- Encoder for an optional string field. -/
def encStrOpt : Option String → Json
  | none => .null
  | some s => .str s

/-- Decoder for an optional string field. -/
def decStrOpt : Json → Option (Option String)
  | .null => some none
  | .str s => some (some s)
  | _ => none

/-- Decoder for a string element. -/
def decStr : Json → Option String
  | .str s => some s
  | _ => none

/-- Decoder for a homogeneous JSON array, failing when any element
fails. -/
def decList (f : Json → Option α) : List Json → Option (List α)
  | [] => some []
  | j :: js =>
    match f j, decList f js with
    | some a, some as => some (a :: as)
    | _, _ => none

theorem decIntOpt_enc (o : Option Int) : decIntOpt (encIntOpt o) = some o := by
  cases o <;> rfl

theorem decStrOpt_enc (o : Option String) :
    decStrOpt (encStrOpt o) = some o := by
  cases o <;> rfl

theorem decList_enc (f : α → Json) (g : Json → Option α)
    (h : ∀ a, g (f a) = some a) (l : List α) :
    decList g (l.map f) = some l := by
  induction l with
  | nil => rfl
  | cons a as ih => simp [decList, h a, ih]

/-- Patient serialized as a JSON document (field order fixed). -/
def encPatient (p : Patient) : Json :=
  .arr [.str p.id, .str p.name, .num p.age, .str p.gender,
    encIntOpt p.weight, encStrOpt p.contactNumber, encStrOpt p.address,
    .str p.createdAt]

/-- Decoder for a serialized Patient. -/
def decPatient : Json → Option Patient
  | .arr [.str id, .str nm, .num age, .str gender, w, c, a, .str created] =>
    match decIntOpt w, decStrOpt c, decStrOpt a with
    | some weight, some contact, some addr =>
      some
        { id := id, name := nm, age := age, gender := gender,
          weight := weight, contactNumber := contact, address := addr,
          createdAt := created }
    | _, _, _ => none
  | _ => none

theorem decPatient_enc (p : Patient) : decPatient (encPatient p) = some p := by
  cases p
  simp [encPatient, decPatient, decIntOpt_enc, decStrOpt_enc]

/-- VitalSigns serialized as a JSON document. -/
def encVitals (v : VitalSigns) : Json :=
  .arr [encIntOpt v.temperature, encStrOpt v.bloodPressure,
    encIntOpt v.heartRate, encIntOpt v.respiratoryRate,
    encIntOpt v.oxygenSaturation]

/-- Decoder for a serialized VitalSigns. -/
def decVitals : Json → Option VitalSigns
  | .arr [t, bp, hr, rr, ox] =>
    match decIntOpt t, decStrOpt bp, decIntOpt hr, decIntOpt rr,
        decIntOpt ox with
    | some a, some b, some c, some d, some e =>
      some
        { temperature := a, bloodPressure := b, heartRate := c,
          respiratoryRate := d, oxygenSaturation := e }
    | _, _, _, _, _ => none
  | _ => none

theorem decVitals_enc (v : VitalSigns) : decVitals (encVitals v) = some v := by
  cases v
  simp [encVitals, decVitals, decIntOpt_enc, decStrOpt_enc]

/-- Encoder for an optional VitalSigns field. -/
def encVitalsOpt : Option VitalSigns → Json
  | none => .null
  | some v => encVitals v

/-- Decoder for an optional VitalSigns field. -/
def decVitalsOpt : Json → Option (Option VitalSigns)
  | .null => some none
  | j => (decVitals j).map some

theorem decVitalsOpt_enc (o : Option VitalSigns) :
    decVitalsOpt (encVitalsOpt o) = some o := by
  cases o with
  | none => rfl
  | some v =>
    cases v
    simp [encVitalsOpt, encVitals, decVitalsOpt, decVitals, decIntOpt_enc,
      decStrOpt_enc]

/-- DifferentialDiagnosis serialized as a JSON document. -/
def encDiff (d : DifferentialDiagnosis) : Json :=
  .arr [.str d.condition, .num d.confidence, .str d.reasoning]

/-- Decoder for a serialized DifferentialDiagnosis. -/
def decDiff : Json → Option DifferentialDiagnosis
  | .arr [.str c, .num n, .str r] =>
    some { condition := c, confidence := n, reasoning := r }
  | _ => none

theorem decDiff_enc (d : DifferentialDiagnosis) :
    decDiff (encDiff d) = some d := by
  cases d
  rfl

/-- Medication serialized as a JSON document. -/
def encMed (m : Medication) : Json :=
  .arr [.str m.name, .str m.dosage, .str m.frequency, .str m.duration]

/-- Decoder for a serialized Medication. -/
def decMed : Json → Option Medication
  | .arr [.str n, .str d, .str f, .str du] =>
    some { name := n, dosage := d, frequency := f, duration := du }
  | _ => none

theorem decMed_enc (m : Medication) : decMed (encMed m) = some m := by
  cases m
  rfl

/-- TreatmentProtocol serialized as a JSON document. -/
def encProtocol (t : TreatmentProtocol) : Json :=
  .arr [.arr (t.medications.map encMed), .arr (t.procedures.map .str),
    .arr (t.lifestyle.map .str)]

/-- Decoder for a serialized TreatmentProtocol. -/
def decProtocol : Json → Option TreatmentProtocol
  | .arr [.arr ms, .arr ps, .arr ls] =>
    match decList decMed ms, decList decStr ps, decList decStr ls with
    | some meds, some procs, some life =>
      some { medications := meds, procedures := procs, lifestyle := life }
    | _, _, _ => none
  | _ => none

theorem decProtocol_enc (t : TreatmentProtocol) :
    decProtocol (encProtocol t) = some t := by
  cases t
  simp [encProtocol, decProtocol, decList_enc encMed decMed decMed_enc,
    decList_enc Json.str decStr (fun _ => rfl)]

/-- Encoder for an optional TreatmentProtocol field. -/
def encProtocolOpt : Option TreatmentProtocol → Json
  | none => .null
  | some t => encProtocol t

/-- Decoder for an optional TreatmentProtocol field. -/
def decProtocolOpt : Json → Option (Option TreatmentProtocol)
  | .null => some none
  | j => (decProtocol j).map some

theorem decProtocolOpt_enc (o : Option TreatmentProtocol) :
    decProtocolOpt (encProtocolOpt o) = some o := by
  cases o with
  | none => rfl
  | some t =>
    cases t
    simp [encProtocolOpt, encProtocol, decProtocolOpt, decProtocol,
      decList_enc encMed decMed decMed_enc,
      decList_enc Json.str decStr (fun _ => rfl)]

/-- Diagnosis serialized as a JSON document. -/
def encDiagnosis (d : Diagnosis) : Json :=
  .arr [.str d.id, .str d.patientId, .arr (d.symptoms.map .str),
    encVitalsOpt d.vitalSigns, .str d.primaryDiagnosis,
    .arr (d.differentialDiagnoses.map encDiff),
    encProtocolOpt d.treatmentProtocol, .bool d.requiresReferral,
    encStrOpt d.referralReason, .str d.language, .str d.createdAt]

/-- Decoder for a serialized Diagnosis. -/
def decDiagnosis : Json → Option Diagnosis
  | .arr [.str id, .str pid, .arr syms, vs, .str pd, .arr dds, tp,
      .bool rr, rres, .str lang, .str created] =>
    match decList decStr syms, decVitalsOpt vs, decList decDiff dds,
        decProtocolOpt tp, decStrOpt rres with
    | some symptoms, some vitals, some diffs, some proto, some reason =>
      some
        { id := id, patientId := pid, symptoms := symptoms,
          vitalSigns := vitals, primaryDiagnosis := pd,
          differentialDiagnoses := diffs, treatmentProtocol := proto,
          requiresReferral := rr, referralReason := reason,
          language := lang, createdAt := created }
    | _, _, _, _, _ => none
  | _ => none

theorem decDiagnosis_enc (d : Diagnosis) :
    decDiagnosis (encDiagnosis d) = some d := by
  cases d
  simp [encDiagnosis, decDiagnosis, decList_enc Json.str decStr (fun _ => rfl),
    decList_enc encDiff decDiff decDiff_enc, decVitalsOpt_enc,
    decProtocolOpt_enc, decStrOpt_enc]

/-- localStorage modelled as an association list from keys to the parsed
JSON document stored under the key. -/
def LocalStorage : Type := List (String × Json)

/-- localStorage.setItem: later writes shadow earlier ones. -/
def setItem (st : LocalStorage) (k : String) (v : Json) : LocalStorage :=
  (k, v) :: (List.filter (fun kv => kv.1 != k) st)

/-- localStorage.getItem. -/
def getItem (st : LocalStorage) (k : String) : Option Json :=
  (List.find? (fun kv => kv.1 == k) st).map (fun kv => kv.2)

/-- localStorage.removeItem. -/
def removeItem (st : LocalStorage) (k : String) : LocalStorage :=
  List.filter (fun kv => kv.1 != k) st

/-- The three cache keys (CACHE_KEYS in client/src/lib/offline.ts). -/
def cachePatientsKey : String := "medassist-cache-patients"

/-- Key of the cached diagnosis list. -/
def cacheDiagnosesKey : String := "medassist-cache-diagnoses"

/-- Key of the last-sync timestamp. -/
def cacheLastSyncKey : String := "medassist-last-sync"

namespace offlineCache

/-- savePatients: stores the serialized list under the patients key and
stamps the last-sync key with the current ISO time. -/
def savePatients (patients : List Patient) (now : String)
    (st : LocalStorage) : LocalStorage :=
  setItem (setItem st cachePatientsKey (.arr (patients.map encPatient)))
    cacheLastSyncKey (.str now)

/-- getPatients: parses the stored document, none when the key is
absent. -/
def getPatients (st : LocalStorage) : Option (List Patient) :=
  (getItem st cachePatientsKey).bind fun j =>
    match j with
    | .arr items => decList decPatient items
    | _ => none

/-- saveDiagnoses: stores the serialized list under the diagnoses key
and stamps the last-sync key. -/
def saveDiagnoses (diagnoses : List Diagnosis) (now : String)
    (st : LocalStorage) : LocalStorage :=
  setItem (setItem st cacheDiagnosesKey (.arr (diagnoses.map encDiagnosis)))
    cacheLastSyncKey (.str now)

/-- getDiagnoses: parses the stored document, none when the key is
absent. -/
def getDiagnoses (st : LocalStorage) : Option (List Diagnosis) :=
  (getItem st cacheDiagnosesKey).bind fun j =>
    match j with
    | .arr items => decList decDiagnosis items
    | _ => none

/-- getLastSync: the stored timestamp string, none when absent. -/
def getLastSync (st : LocalStorage) : Option String :=
  (getItem st cacheLastSyncKey).bind fun j =>
    match j with
    | .str s => some s
    | _ => none

/-- clearAll: removes every cache key. -/
def clearAll (st : LocalStorage) : LocalStorage :=
  removeItem (removeItem (removeItem st cachePatientsKey) cacheDiagnosesKey)
    cacheLastSyncKey

end offlineCache

theorem getItem_setItem_self (st : LocalStorage) (k : String) (v : Json) :
    getItem (setItem st k v) k = some v := by
  simp [getItem, setItem, List.find?]

theorem find?_key_congr (p q : α → Bool) (h : ∀ a, p a = q a)
    (l : List α) : List.find? p l = List.find? q l := by
  induction l with
  | nil => rfl
  | cons a l ih => rw [List.find?_cons, List.find?_cons, h a, ih]

theorem getItem_setItem_ne (st : LocalStorage) (k k2 : String) (v : Json)
    (h : k ≠ k2) : getItem (setItem st k2 v) k = getItem st k := by
  have h2 : (k2 == k) = false := by
    simpa using fun e => h e.symm
  have hpt : ∀ kv : String × Json,
      (decide ((kv.1 != k2) = true ∧ (kv.1 == k) = true)) = (kv.1 == k) := by
    intro kv
    by_cases hx : kv.1 = k <;> simp [hx, h]
  simp only [getItem, setItem, List.find?_cons, h2, List.find?_filter,
    find?_key_congr _ _ hpt st]

theorem getItem_removeItem_self (st : LocalStorage) (k : String) :
    getItem (removeItem st k) k = none := by
  have hnone :
      List.find? (fun kv : String × Json =>
        decide ((kv.1 != k) = true ∧ (kv.1 == k) = true)) st = none := by
    rw [List.find?_eq_none]
    intro kv _
    by_cases hx : kv.1 = k <;> simp [hx]
  simp [getItem, removeItem, List.find?_filter, hnone]

theorem getItem_removeItem_ne (st : LocalStorage) (k k2 : String)
    (h : k ≠ k2) : getItem (removeItem st k2) k = getItem st k := by
  have hpt : ∀ kv : String × Json,
      (decide ((kv.1 != k2) = true ∧ (kv.1 == k) = true)) = (kv.1 == k) := by
    intro kv
    by_cases hx : kv.1 = k <;> simp [hx, h]
  simp only [getItem, removeItem, List.find?_filter,
    find?_key_congr _ _ hpt st]

/-! ## Concrete example values used by witnesses and counterexamples -/

/-- A concrete analyze payload. -/
def exInput : OfflineDiagnosisInput :=
  { patientId := some "p1", symptoms := ["fever"], vitalSigns := none,
    patientAge := 30, patientGender := "male", patientWeight := none,
    language := "en" }

/-- A concrete patient row. -/
def exPatient : Patient :=
  { id := "p1", name := "A", age := 30, gender := "male", weight := none,
    contactNumber := none, address := none,
    createdAt := "2024-01-01T00:00:00.000Z" }

/-- A database state holding exactly the example patient. -/
def exDb : DbState :=
  { patients := [exPatient], diagnoses := [], knowledgeBase := [] }

/-- A concrete valid diagnose request for the example patient. -/
def exReq : SymptomAnalysisRequest :=
  { patientId := "p1", symptoms := ["fever"], vitalSigns := none,
    patientAge := 30, patientGender := "male", patientWeight := none,
    language := some "en" }

/-- A concrete FastAPI analysis response with one differential. -/
def exAi : AiDiagnosis :=
  { primaryDiagnosis := "Common cold",
    differentialDiagnoses :=
      some [{ condition := "Influenza", confidence := 70, reasoning := "r" }],
    treatmentProtocol := none, requiresReferral := some false,
    referralReason := none }

/-- A concrete stored diagnosis as the primary backend returns it. -/
def exDiagnosis : Diagnosis :=
  { id := "d1", patientId := "p1", symptoms := ["fever"], vitalSigns := none,
    primaryDiagnosis := "Common cold", differentialDiagnoses := [],
    treatmentProtocol := none, requiresReferral := false,
    referralReason := none, language := "en",
    createdAt := "2024-01-01T00:00:00.000Z" }

/-- A concrete fallback-backend payload without a mode field. -/
def exFallbackData : BackendData :=
  { mode := none, patientId := some "p1",
    primaryDiagnosis := "Viral infection", differentialDiagnoses := [],
    treatmentProtocol := none, requiresReferral := false,
    referralReason := none, knowledgeSnippets := [] }

/-! ## Claim C1 -/

/-- C1 counterexample: a run issued while the Connectivity Oracle reports
online whose primary call succeeds returns the primary payload with no
provenance tag at all (mode is absent), so results produced by the
primary backend are not tagged "online" as the claim states. -/
theorem C1_counterexample :
    (analyzeMutationFn (isOnline (some true))
      (.success (serverDiagnosisPayload exDiagnosis)) .netError
      exInput).result.mode = none ∧
    (analyzeMutationFn (isOnline (some true))
      (.success (serverDiagnosisPayload exDiagnosis)) .netError
      exInput).result.mode ≠ some "online" := by
  constructor
  · rfl
  · intro h
    simp [analyzeMutationFn, isOnline, serverDiagnosisPayload,
      exDiagnosis] at h

/-- C1 (amended): while the Connectivity Oracle reports online, a primary
failure makes the resolver call the fallback backend exactly once (after
the single primary attempt) and return the normalized fallback result,
which is tagged mode = "offline" whenever the fallback payload carries no
mode field; a primary success is returned as-is, with no provenance tag
added, and without any fallback call. -/
theorem C1_online_fallback_once_tagged_offline (nav : Option Bool)
    (f : FetchResult) (input : OfflineDiagnosisInput)
    (h : isOnline nav = true) :
    ((analyzeMutationFn (isOnline nav) .failure f input).primaryCalls = 1 ∧
     (analyzeMutationFn (isOnline nav) .failure f input).fallbackCalls = 1 ∧
     (analyzeMutationFn (isOnline nav) .failure f input).result =
       diagnoseOffline input f) ∧
    (∀ status data, f = .response status data → fetchOk status = true →
      ∀ d, data = some d → d.mode = none →
        (analyzeMutationFn (isOnline nav) .failure f input).result =
          { d with mode := some "offline" }) ∧
    (∀ r, (analyzeMutationFn (isOnline nav) (.success r) f input).result = r ∧
      (analyzeMutationFn (isOnline nav) (.success r) f input).result.mode =
        r.mode ∧
      (analyzeMutationFn (isOnline nav) (.success r) f input).fallbackCalls =
        0) := by
  rw [h]
  refine ⟨⟨rfl, rfl, rfl⟩, ?_, fun r => ⟨rfl, rfl, rfl⟩⟩
  intro status data hf hok d hd hmode
  subst hf
  subst hd
  simp [analyzeMutationFn, diagnoseOffline, hok, hmode]

/-- C1 witness at concrete inputs: oracle online, primary fails with a
2xx fallback response carrying no mode field. -/
theorem C1_online_fallback_once_tagged_offline_witness :
    (analyzeMutationFn (isOnline (some true)) .failure
      (.response 200 (some exFallbackData)) exInput).fallbackCalls = 1 ∧
    (analyzeMutationFn (isOnline (some true)) .failure
      (.response 200 (some exFallbackData)) exInput).result =
      { exFallbackData with mode := some "offline" } := by
  have h := C1_online_fallback_once_tagged_offline (some true)
    (.response 200 (some exFallbackData)) exInput (by decide)
  exact ⟨h.1.2.1, h.2.1 200 (some exFallbackData) rfl (by decide)
    exFallbackData rfl rfl⟩

/-! ## Claim C2 -/

/-- C2: while the Connectivity Oracle reports offline, the resolver
performs zero primary-backend calls and routes the request directly to
the local fallback backend (exactly one fallback call, whose normalized
result is returned). -/
theorem C2_offline_never_calls_primary (nav : Option Bool)
    (primary : ApiOutcome) (f : FetchResult)
    (input : OfflineDiagnosisInput) (h : isOnline nav = false) :
    (analyzeMutationFn (isOnline nav) primary f input).primaryCalls = 0 ∧
    (analyzeMutationFn (isOnline nav) primary f input).fallbackCalls = 1 ∧
    (analyzeMutationFn (isOnline nav) primary f input).result =
      diagnoseOffline input f := by
  rw [h]
  exact ⟨rfl, rfl, rfl⟩

/-- C2 witness at concrete inputs. -/
theorem C2_offline_never_calls_primary_witness :
    (analyzeMutationFn (isOnline (some false))
      (.success (serverDiagnosisPayload exDiagnosis)) .netError
      exInput).primaryCalls = 0 ∧
    (analyzeMutationFn (isOnline (some false))
      (.success (serverDiagnosisPayload exDiagnosis)) .netError
      exInput).fallbackCalls = 1 ∧
    (analyzeMutationFn (isOnline (some false))
      (.success (serverDiagnosisPayload exDiagnosis)) .netError
      exInput).result = diagnoseOffline exInput .netError :=
  C2_offline_never_calls_primary (some false)
    (.success (serverDiagnosisPayload exDiagnosis)) .netError exInput
    (by decide)

/-! ## Claim C3 -/

/-- The situations in which the fetch inside diagnoseOffline lands in its
catch branch: transport error, non-2xx status, or unparseable body. -/
def fallbackUnavailable : FetchResult → Bool
  | .netError => true
  | .response status body => !fetchOk status || body.isNone

/-- C3: when the local fallback backend is unreachable, a request with a
non-empty symptom list still produces a result (diagnoseOffline is total
and its catch branch returns the degraded object instead of throwing):
the primaryDiagnosis is the non-empty sentinel service-unavailable
message, the differential list is empty, requiresReferral is false and
referralReason is the fixed explanatory string; the analyze resolver
returns exactly this degraded result whenever it routes to the
fallback. -/
theorem C3_degraded_sentinel_result (input : OfflineDiagnosisInput)
    (f : FetchResult) (h1 : input.symptoms ≠ [])
    (h2 : fallbackUnavailable f = true) :
    diagnoseOffline input f = offlineSentinel input ∧
    (diagnoseOffline input f).primaryDiagnosis =
      "Offline diagnosis service unavailable" ∧
    (diagnoseOffline input f).primaryDiagnosis ≠ "" ∧
    (diagnoseOffline input f).differentialDiagnoses = [] ∧
    (diagnoseOffline input f).requiresReferral = false ∧
    (diagnoseOffline input f).referralReason =
      some "Error in local NLP service" ∧
    (∀ online : Bool,
      (analyzeMutationFn online .failure f input).result =
        diagnoseOffline input f) := by
  have hsent : diagnoseOffline input f = offlineSentinel input := by
    cases f with
    | netError => rfl
    | response status body =>
      simp only [fallbackUnavailable, Bool.or_eq_true, Bool.not_eq_true',
        Option.isNone_iff_eq_none] at h2
      rcases h2 with hst | hbody
      · simp [diagnoseOffline, hst]
      · subst hbody
        cases hst : fetchOk status <;> simp [diagnoseOffline, hst]
  refine ⟨hsent, ?_, ?_, ?_, ?_, ?_, ?_⟩
  · rw [hsent]; rfl
  · rw [hsent]; simp [offlineSentinel]
  · rw [hsent]; rfl
  · rw [hsent]; rfl
  · rw [hsent]; rfl
  · intro online
    cases online <;> simp [analyzeMutationFn]

/-- C3 witness at concrete inputs: non-empty symptoms, fallback
transport error. -/
theorem C3_degraded_sentinel_result_witness :
    diagnoseOffline exInput .netError = offlineSentinel exInput ∧
    (diagnoseOffline exInput .netError).primaryDiagnosis =
      "Offline diagnosis service unavailable" ∧
    (diagnoseOffline exInput .netError).differentialDiagnoses = [] ∧
    (diagnoseOffline exInput .netError).requiresReferral = false ∧
    (diagnoseOffline exInput .netError).referralReason =
      some "Error in local NLP service" := by
  have h := C3_degraded_sentinel_result exInput .netError (by decide) rfl
  exact ⟨h.1, h.2.1, h.2.2.2.1, h.2.2.2.2.1, h.2.2.2.2.2.1⟩

/-! ## Claim C7 -/

/-- C7: a diagnose request with an empty symptoms list fails validation
and answers HTTP 400 with the validation-error body, before any call to
the FastAPI backend (zero backend calls) and with the database left
untouched (no diagnosis row and no knowledge-base entry created). -/
theorem C7_empty_symptoms_rejected_before_network (env : DiagnoseEnv)
    (st : DbState) (req : SymptomAnalysisRequest)
    (diagId kbId now : String) (h : req.symptoms = []) :
    (diagnoseHandler env st req diagId kbId now).status = 400 ∧
    (diagnoseHandler env st req diagId kbId now).body =
      .invalidDiagnosisData ∧
    (diagnoseHandler env st req diagId kbId now).fastApiCalls = 0 ∧
    (diagnoseHandler env st req diagId kbId now).db = st ∧
    (diagnoseHandler env st req diagId kbId now).db.diagnoses =
      st.diagnoses ∧
    (diagnoseHandler env st req diagId kbId now).db.knowledgeBase =
      st.knowledgeBase := by
  have hparse : symptomAnalysisParse req = .error () := by
    simp [symptomAnalysisParse, h]
  simp [diagnoseHandler, hparse]

/-- C7 witness at a concrete empty-symptoms request. -/
theorem C7_empty_symptoms_rejected_before_network_witness :
    (diagnoseHandler { fastApi := .ok exAi, addEntryOk := true } exDb
      { exReq with symptoms := [] } "d1" "k1" "t1").status = 400 ∧
    (diagnoseHandler { fastApi := .ok exAi, addEntryOk := true } exDb
      { exReq with symptoms := [] } "d1" "k1" "t1").fastApiCalls = 0 ∧
    (diagnoseHandler { fastApi := .ok exAi, addEntryOk := true } exDb
      { exReq with symptoms := [] } "d1" "k1" "t1").db = exDb := by
  have h := C7_empty_symptoms_rejected_before_network
    { fastApi := .ok exAi, addEntryOk := true } exDb
    { exReq with symptoms := [] } "d1" "k1" "t1" rfl
  exact ⟨h.1, h.2.2.1, h.2.2.2.1⟩

/-! ## Claim C4 -/

/-- C4 counterexample: a concrete run in which validation, the FastAPI
call and createDiagnosis all succeed but addKnowledgeEntry fails answers
HTTP 500 with the NLP-service-unavailable body instead of returning the
stored diagnosis, even though the diagnosis row has been committed; so
the overall call does not succeed as the claim states. -/
theorem C4_counterexample :
    (diagnoseHandler { fastApi := .ok exAi, addEntryOk := false } exDb exReq
      "d1" "k1" "t1").status = 500 ∧
    (diagnoseHandler { fastApi := .ok exAi, addEntryOk := false } exDb exReq
      "d1" "k1" "t1").body = .nlpServiceUnavailable ∧
    (diagnoseHandler { fastApi := .ok exAi, addEntryOk := false } exDb exReq
      "d1" "k1" "t1").db.diagnoses.length = 1 := by
  refine ⟨?_, ?_, ?_⟩ <;> rfl

/-- C4 (amended): when createDiagnosis succeeds and the subsequent
addKnowledgeEntry call fails, the already-committed Diagnosis row is not
rolled back (it remains in the database and no knowledge entry is
added), but the overall call does not succeed: the shared catch branch
answers HTTP 500 with the NLP-service-unavailable body instead of
returning the stored diagnosis. -/
theorem C4_kb_failure_keeps_diagnosis_but_fails_request
    (env : DiagnoseEnv) (st : DbState) (req : SymptomAnalysisRequest)
    (diagId kbId now : String) (ai : AiDiagnosis)
    (hsym : req.symptoms ≠ [])
    (hlang : req.language.getD "en" ∈ supportedLanguages)
    (hai : env.fastApi = .ok ai)
    (hpat : st.patients.any (fun p => p.id == req.patientId) = true)
    (hadd : env.addEntryOk = false) :
    (diagnoseHandler env st req diagId kbId now).status = 500 ∧
    (diagnoseHandler env st req diagId kbId now).body =
      .nlpServiceUnavailable ∧
    (∃ row, (diagnoseHandler env st req diagId kbId now).db.diagnoses =
      row :: st.diagnoses ∧ row.id = diagId ∧
      row.patientId = req.patientId) ∧
    (diagnoseHandler env st req diagId kbId now).db.knowledgeBase =
      st.knowledgeBase := by
  have hparse : symptomAnalysisParse req =
      .ok ⟨req.patientId, req.symptoms, req.vitalSigns, req.patientAge,
        req.patientGender, req.patientWeight, req.language.getD "en"⟩ := by
    have hlen : req.symptoms.length ≥ 1 := by
      cases hs : req.symptoms with
      | nil => exact absurd hs hsym
      | cons a l => simp [hs]
    simp [symptomAnalysisParse, hlen, hlang]
  simp only [diagnoseHandler, hparse, hai, SqliteStorage.createDiagnosis,
    hpat, if_true, hadd, if_false, Bool.false_eq_true]
  exact ⟨trivial, trivial, ⟨_, rfl, rfl, rfl⟩, trivial⟩

/-- C4 witness at concrete inputs (valid request, FastAPI success,
existing patient, failing knowledge insert). -/
theorem C4_kb_failure_keeps_diagnosis_but_fails_request_witness :
    (diagnoseHandler { fastApi := .ok exAi, addEntryOk := false } exDb exReq
      "d1" "k1" "t1").status = 500 ∧
    (∃ row, (diagnoseHandler { fastApi := .ok exAi, addEntryOk := false }
      exDb exReq "d1" "k1" "t1").db.diagnoses = row :: exDb.diagnoses ∧
      row.id = "d1" ∧ row.patientId = exReq.patientId) ∧
    (diagnoseHandler { fastApi := .ok exAi, addEntryOk := false } exDb exReq
      "d1" "k1" "t1").db.knowledgeBase = exDb.knowledgeBase := by
  have h := C4_kb_failure_keeps_diagnosis_but_fails_request
    { fastApi := .ok exAi, addEntryOk := false } exDb exReq "d1" "k1" "t1"
    exAi (by decide) (by decide) rfl (by decide) rfl
  exact ⟨h.1, h.2.2.1, h.2.2.2⟩

/-! ## Claim C5 -/

/-- C5: on every analyze run in which a Diagnosis is successfully
created and the knowledge insert goes through, exactly one
KnowledgeBaseEntry is added (the knowledge table grows by exactly the
new row); its ageGroup is child for patientAge below 18, adult for ages
18 through 59, and senior from 60 on; its confidence is the first
differential confidence of the FastAPI response, and 100 when the
differential list is absent or empty. -/
theorem C5_knowledge_entry_derivation (env : DiagnoseEnv) (st : DbState)
    (req : SymptomAnalysisRequest) (diagId kbId now : String)
    (ai : AiDiagnosis) (hsym : req.symptoms ≠ [])
    (hlang : req.language.getD "en" ∈ supportedLanguages)
    (hai : env.fastApi = .ok ai)
    (hpat : st.patients.any (fun p => p.id == req.patientId) = true)
    (hadd : env.addEntryOk = true) :
    (diagnoseHandler env st req diagId kbId now).status = 201 ∧
    ∃ row, (diagnoseHandler env st req diagId kbId now).db.knowledgeBase =
        row :: st.knowledgeBase ∧
      row.symptoms = some req.symptoms ∧
      row.gender = req.patientGender ∧
      row.diagnosis = ai.primaryDiagnosis ∧
      row.outcome = none ∧
      (req.patientAge < 18 → row.ageGroup = "child") ∧
      (18 ≤ req.patientAge → req.patientAge < 60 → row.ageGroup = "adult") ∧
      (60 ≤ req.patientAge → row.ageGroup = "senior") ∧
      (ai.differentialDiagnoses = none → row.confidence = 100) ∧
      (ai.differentialDiagnoses = some [] → row.confidence = 100) ∧
      (∀ d rest, ai.differentialDiagnoses = some (d :: rest) →
        row.confidence = d.confidence) := by
  have hparse : symptomAnalysisParse req =
      .ok ⟨req.patientId, req.symptoms, req.vitalSigns, req.patientAge,
        req.patientGender, req.patientWeight, req.language.getD "en"⟩ := by
    have hlen : req.symptoms.length ≥ 1 := by
      cases hs : req.symptoms with
      | nil => exact absurd hs hsym
      | cons a l => simp [hs]
    simp [symptomAnalysisParse, hlen, hlang]
  simp only [diagnoseHandler, hparse, hai, SqliteStorage.createDiagnosis,
    hpat, if_true, hadd, SqliteStorage.addKnowledgeEntry]
  refine ⟨trivial, ⟨_, rfl, rfl, rfl, rfl, rfl, ?_, ?_, ?_, ?_, ?_, ?_⟩⟩
  · intro h
    simp only [ageGroupOf, if_pos h]
  · intro h1 h2
    simp only [ageGroupOf, if_neg (by omega : ¬req.patientAge < 18),
      if_pos h2]
  · intro h
    simp only [ageGroupOf, if_neg (by omega : ¬req.patientAge < 18),
      if_neg (by omega : ¬req.patientAge < 60)]
  · intro h
    simp [topConfidence, h]
  · intro h
    simp [topConfidence, h]
  · intro d rest h
    simp [topConfidence, h]

/-- C5 witness at concrete inputs (age 30, one differential with
confidence 70). -/
theorem C5_knowledge_entry_derivation_witness :
    (diagnoseHandler { fastApi := .ok exAi, addEntryOk := true } exDb exReq
      "d1" "k1" "t1").status = 201 ∧
    ∃ row, (diagnoseHandler { fastApi := .ok exAi, addEntryOk := true }
        exDb exReq "d1" "k1" "t1").db.knowledgeBase =
        row :: exDb.knowledgeBase ∧
      row.ageGroup = "adult" ∧ row.confidence = 70 := by
  have h := C5_knowledge_entry_derivation
    { fastApi := .ok exAi, addEntryOk := true } exDb exReq "d1" "k1" "t1"
    exAi (by decide) (by decide) rfl (by decide) rfl
  obtain ⟨hst, row, hrow, _, _, _, _, hchild, hadult, hsenior, _, _, hconf⟩ := h
  refine ⟨hst, row, hrow, ?_, ?_⟩
  · exact hadult (by decide) (by decide)
  · exact hconf ⟨"Influenza", 70, "r"⟩ [] rfl

/-! ## Claim C9 -/

/-- C9: createDiagnosis fails with the foreign-key ReferenceError (and
persists nothing) when patientId references no existing Patient; when a
matching Patient exists it persists exactly one new row carrying the
generated id and timestamp, leaves the other tables unchanged, and
returns the full record rebuilt from the inputs. -/
theorem C9_createDiagnosis_fk (st : DbState) (ins : InsertDiagnosis)
    (id now : String) :
    ((st.patients.any (fun p => p.id == ins.patientId)) = false →
      SqliteStorage.createDiagnosis st ins id now =
        .error .foreignKeyViolation) ∧
    ((st.patients.any (fun p => p.id == ins.patientId)) = true →
      ∃ st2 d, SqliteStorage.createDiagnosis st ins id now = .ok (st2, d) ∧
        st2.patients = st.patients ∧
        st2.knowledgeBase = st.knowledgeBase ∧
        (∃ row, st2.diagnoses = row :: st.diagnoses ∧ row.id = id ∧
          row.patientId = ins.patientId ∧ row.createdAt = now) ∧
        d.id = id ∧ d.createdAt = now ∧ d.patientId = ins.patientId ∧
        d.symptoms = ins.symptoms ∧ d.vitalSigns = ins.vitalSigns ∧
        d.primaryDiagnosis = ins.primaryDiagnosis ∧
        d.differentialDiagnoses = ins.differentialDiagnoses.getD [] ∧
        d.treatmentProtocol = ins.treatmentProtocol ∧
        d.requiresReferral = ins.requiresReferral ∧
        d.referralReason = ins.referralReason ∧
        d.language = ins.language.getD "en") := by
  constructor
  · intro h
    simp [SqliteStorage.createDiagnosis, h]
  · intro h
    simp only [SqliteStorage.createDiagnosis, h, if_true]
    exact ⟨_, _, rfl, rfl, rfl, ⟨_, rfl, rfl, rfl, rfl⟩, rfl, rfl, rfl,
      rfl, rfl, rfl, rfl, rfl, rfl, rfl, rfl⟩

/-- A concrete insert payload used by the C9 witness. -/
def exInsert : InsertDiagnosis :=
  { patientId := "p1", symptoms := ["fever"], vitalSigns := none,
    primaryDiagnosis := "Common cold", differentialDiagnoses := none,
    treatmentProtocol := none, requiresReferral := false,
    referralReason := none, language := some "en" }

/-- C9 witness: the missing-patient branch at an empty database and the
existing-patient branch at the example database. -/
theorem C9_createDiagnosis_fk_witness :
    SqliteStorage.createDiagnosis
      { patients := [], diagnoses := [], knowledgeBase := [] } exInsert
      "d1" "t1" = .error .foreignKeyViolation ∧
    ∃ st2 d, SqliteStorage.createDiagnosis exDb exInsert "d1" "t1" =
      .ok (st2, d) ∧ d.id = "d1" ∧ d.createdAt = "t1" := by
  constructor
  · exact (C9_createDiagnosis_fk
      { patients := [], diagnoses := [], knowledgeBase := [] } exInsert
      "d1" "t1").1 rfl
  · obtain ⟨st2, d, hok, _, _, _, hid, hnow, _⟩ :=
      (C9_createDiagnosis_fk exDb exInsert "d1" "t1").2 (by decide)
    exact ⟨st2, d, hok, hid, hnow⟩

/-! ## Claim C10 -/

/-- C10: every Diagnosis produced by a gateway read is the rowToDiagnosis
normalization of a stored row, and that normalization yields the empty
list for a NULL symptoms or differential column, the boolean coercion of
the integer requiresReferral column, and "en" for a NULL language
column; moreover createDiagnosis stores NULL for an absent differential
list, and reading that row back still yields the empty list. -/
theorem C10_reads_normalized :
    (∀ row : DiagRow,
      (row.symptoms = none → (rowToDiagnosis row).symptoms = []) ∧
      (row.differentialDiagnoses = none →
        (rowToDiagnosis row).differentialDiagnoses = []) ∧
      (row.language = none → (rowToDiagnosis row).language = "en") ∧
      (rowToDiagnosis row).requiresReferral = (row.requiresReferral != 0)) ∧
    (∀ (st : DbState) (d : Diagnosis),
      d ∈ SqliteStorage.getAllDiagnoses st →
      ∃ row ∈ st.diagnoses, d = rowToDiagnosis row) ∧
    (∀ (st : DbState) (pid : String) (d : Diagnosis),
      d ∈ SqliteStorage.getDiagnosesByPatient st pid →
      ∃ row ∈ st.diagnoses, d = rowToDiagnosis row) ∧
    (∀ (st : DbState) (i : String) (d : Diagnosis),
      SqliteStorage.getDiagnosis st i = some d →
      ∃ row ∈ st.diagnoses, d = rowToDiagnosis row) ∧
    (∀ (st : DbState) (ins : InsertDiagnosis) (i now : String)
      (st2 : DbState) (d : Diagnosis), ins.differentialDiagnoses = none →
      SqliteStorage.createDiagnosis st ins i now = .ok (st2, d) →
      ∃ row, st2.diagnoses = row :: st.diagnoses ∧
        row.differentialDiagnoses = none ∧
        (rowToDiagnosis row).differentialDiagnoses = []) := by
  refine ⟨?_, ?_, ?_, ?_, ?_⟩
  · intro row
    refine ⟨fun h => ?_, fun h => ?_, fun h => ?_, rfl⟩ <;>
      simp [rowToDiagnosis, h]
  · intro st d hd
    simp only [SqliteStorage.getAllDiagnoses, List.mem_map] at hd
    obtain ⟨row, hrow, hmap⟩ := hd
    exact ⟨row, (List.mergeSort_perm st.diagnoses createdAtDesc).mem_iff.mp
      hrow, hmap.symm⟩
  · intro st pid d hd
    simp only [SqliteStorage.getDiagnosesByPatient, List.mem_map] at hd
    obtain ⟨row, hrow, hmap⟩ := hd
    have hrow2 := (List.mergeSort_perm _ createdAtDesc).mem_iff.mp hrow
    exact ⟨row, List.mem_of_mem_filter hrow2, hmap.symm⟩
  · intro st i d hd
    unfold SqliteStorage.getDiagnosis at hd
    cases hfind : List.find? (fun row => row.id == i) st.diagnoses with
    | none =>
      rw [hfind] at hd
      exact absurd hd (by simp)
    | some row =>
      rw [hfind] at hd
      simp only [Option.map_some'] at hd
      injection hd with hd2
      exact ⟨row, List.mem_of_find?_eq_some hfind, hd2.symm⟩
  · intro st ins i now st2 d hnone hok
    simp only [SqliteStorage.createDiagnosis] at hok
    by_cases hpat : (st.patients.any (fun p => p.id == ins.patientId)) = true
    · rw [if_pos hpat] at hok
      injection hok with hpair
      injection hpair with hst2 hd
      refine ⟨⟨i, ins.patientId, some ins.symptoms, ins.vitalSigns,
        ins.primaryDiagnosis, ins.differentialDiagnoses,
        ins.treatmentProtocol, if ins.requiresReferral then 1 else 0,
        ins.referralReason, some (ins.language.getD "en"), now⟩,
        ?_, hnone, ?_⟩
      · rw [← hst2]
      · simp [rowToDiagnosis, hnone]
    · rw [if_neg hpat] at hok
      exact absurd hok (by simp)

/-- C10 witness: a concrete row with NULL symptom, differential and
language columns normalizes to empty lists, language "en" and a false
referral flag, and a concrete createDiagnosis run with an absent
differential list stores a NULL column that reads back as the empty
list. -/
theorem C10_reads_normalized_witness :
    (rowToDiagnosis
      ⟨"d0", "p1", none, none, "x", none, none, 0, none, none, "t0"⟩
      ).symptoms = [] ∧
    (rowToDiagnosis
      ⟨"d0", "p1", none, none, "x", none, none, 0, none, none, "t0"⟩
      ).differentialDiagnoses = [] ∧
    (rowToDiagnosis
      ⟨"d0", "p1", none, none, "x", none, none, 0, none, none, "t0"⟩
      ).language = "en" ∧
    (rowToDiagnosis
      ⟨"d0", "p1", none, none, "x", none, none, 0, none, none, "t0"⟩
      ).requiresReferral = false ∧
    ∃ st2 d row,
      SqliteStorage.createDiagnosis exDb exInsert "d1" "t1" =
        .ok (st2, d) ∧
      st2.diagnoses = row :: exDb.diagnoses ∧
      row.differentialDiagnoses = none ∧
      (rowToDiagnosis row).differentialDiagnoses = [] := by
  have h := C10_reads_normalized
  obtain ⟨hrow, _, _, _, hcreate⟩ := h
  have hr := hrow ⟨"d0", "p1", none, none, "x", none, none, 0, none, none,
    "t0"⟩
  refine ⟨hr.1 rfl, hr.2.1 rfl, hr.2.2.1 rfl, ?_, ?_⟩
  · rw [hr.2.2.2]
    rfl
  · obtain ⟨st2, d, hok, _, _, _, _⟩ :=
      (C9_createDiagnosis_fk exDb exInsert "d1" "t1").2 (by decide)
    obtain ⟨row, hrows, hcol, hnorm⟩ :=
      hcreate exDb exInsert "d1" "t1" st2 d rfl hok
    exact ⟨st2, d, row, hok, hrows, hcol, hnorm⟩

/-! ## Claim C6 -/

/-- C6: searchKnowledge returns exactly (as a multiset) the
rowToKnowledge images of the stored rows whose ageGroup equals the query
ageGroup, whose gender equals the query gender or the wildcard "other",
and whose stored symptom list shares at least one element with the query
symptom list; and the returned list is sorted by confidence in
descending order. -/
theorem C6_searchKnowledge_exact_and_sorted (st : DbState)
    (symptoms : List String) (ageGroup gender : String) :
    (SqliteStorage.searchKnowledge st symptoms ageGroup gender).Perm
      ((st.knowledgeBase.filter (fun row =>
        decide (row.ageGroup = ageGroup ∧
          (row.gender = gender ∨ row.gender = "other") ∧
          ∃ s ∈ symptoms, s ∈ row.symptoms.getD []))).map rowToKnowledge) ∧
    List.Pairwise (fun a b => b.confidence ≤ a.confidence)
      (SqliteStorage.searchKnowledge st symptoms ageGroup gender) := by
  constructor
  · simp only [SqliteStorage.searchKnowledge]
    refine (List.mergeSort_perm _ _).trans ?_
    rw [List.filter_filter]
    have hpt : ∀ row ∈ st.knowledgeBase,
        ((symptoms.any fun s => (row.symptoms.getD []).contains s) &&
          (row.ageGroup == ageGroup &&
            (row.gender == gender || row.gender == "other"))) =
        decide (row.ageGroup = ageGroup ∧
          (row.gender = gender ∨ row.gender = "other") ∧
          ∃ s ∈ symptoms, s ∈ row.symptoms.getD []) := by
      intro row _
      rw [Bool.eq_iff_iff]
      simp only [Bool.and_eq_true, Bool.or_eq_true, beq_iff_eq,
        List.any_eq_true, List.contains, List.elem_iff, decide_eq_true_eq]
      tauto
    rw [List.filter_congr hpt]
  · simp only [SqliteStorage.searchKnowledge]
    refine (List.sorted_mergeSort ?_ ?_ _).imp ?_
    · intro a b c hab hbc
      simp only [decide_eq_true_eq] at hab hbc ⊢
      omega
    · intro a b
      simp only [Bool.or_eq_true, decide_eq_true_eq]
      omega
    · intro a b h
      simpa using h

/-! ## Claim C8 -/

/-- C8: saving a list to a Snapshot Store collection wholesale-overwrites
any prior value of that collection and stamps the last-sync timestamp,
and reading the collection back returns a deep-equal list; after
clearAll, reading any collection (or the last-sync timestamp) returns
absent. -/
theorem C8_snapshot_save_get_clear (st : LocalStorage) (ps : List Patient)
    (ds : List Diagnosis) (now : String) :
    offlineCache.getPatients (offlineCache.savePatients ps now st) =
      some ps ∧
    offlineCache.getLastSync (offlineCache.savePatients ps now st) =
      some now ∧
    offlineCache.getDiagnoses (offlineCache.saveDiagnoses ds now st) =
      some ds ∧
    offlineCache.getLastSync (offlineCache.saveDiagnoses ds now st) =
      some now ∧
    offlineCache.getPatients (offlineCache.clearAll st) = none ∧
    offlineCache.getDiagnoses (offlineCache.clearAll st) = none ∧
    offlineCache.getLastSync (offlineCache.clearAll st) = none := by
  refine ⟨?_, ?_, ?_, ?_, ?_, ?_, ?_⟩
  · rw [offlineCache.getPatients, offlineCache.savePatients,
      getItem_setItem_ne _ _ _ _ (by decide), getItem_setItem_self]
    simp [decList_enc encPatient decPatient decPatient_enc]
  · rw [offlineCache.getLastSync, offlineCache.savePatients,
      getItem_setItem_self]
    rfl
  · rw [offlineCache.getDiagnoses, offlineCache.saveDiagnoses,
      getItem_setItem_ne _ _ _ _ (by decide), getItem_setItem_self]
    simp [decList_enc encDiagnosis decDiagnosis decDiagnosis_enc]
  · rw [offlineCache.getLastSync, offlineCache.saveDiagnoses,
      getItem_setItem_self]
    rfl
  · rw [offlineCache.getPatients, offlineCache.clearAll,
      getItem_removeItem_ne _ _ _ (by decide),
      getItem_removeItem_ne _ _ _ (by decide), getItem_removeItem_self]
    rfl
  · rw [offlineCache.getDiagnoses, offlineCache.clearAll,
      getItem_removeItem_ne _ _ _ (by decide), getItem_removeItem_self]
    rfl
  · rw [offlineCache.getLastSync, offlineCache.clearAll,
      getItem_removeItem_self]
    rfl
